import Mathlib

/-!
Shallow embedding of the LiteEth standalone-core generator
(`src/liteeth/gen.py`) and of the PHY auto-detection helper
(`src/liteeth/phy/__init__.py`), with theorems settling the
specification claims about them.
-/

namespace LiteEthV

/-! ## PHY auto-detection (src/liteeth/phy/__init__.py, `LiteEthPHY`) -/

/-- Shape of the clock pads as the autodetector probes it:
`hasattr(clock_pads, "gtx")` and `hasattr(clock_pads, "tx")`. -/
structure ClockPads where
  has_gtx : Bool
  has_tx  : Bool
deriving DecidableEq, Repr

/-- Shape of the data pads as the autodetector probes it:
`len(pads.tx_data)` and `hasattr(pads, "rx_ctl")`. -/
structure DataPads where
  tx_data_width : Nat
  has_rx_ctl    : Bool
deriving DecidableEq, Repr

/-- Concrete PHY variants named by `liteeth.phy`. -/
inductive PhyKind where
  | mii
  | rmii
  | gmii
  | gmiiMii
  | s6rgmii
  | s7rgmii
  | usrgmii
  | ecp5rgmii
  | xgmii
  | model
deriving DecidableEq, Repr

/-- The two `ValueError`s raised by the autodetector. -/
inductive AutodetectError where
  | rgmiiVendorSpecific
  | unableToAutodetect
deriving DecidableEq, Repr

/-- Embedding of `LiteEthPHY` (src/liteeth/phy/__init__.py lines 4-23):
the ordered decision list probing pad shapes. -/
def LiteEthPHY (clock_pads : ClockPads) (pads : DataPads) :
    Except AutodetectError PhyKind :=
  if clock_pads.has_gtx && pads.tx_data_width == 8 then
    if clock_pads.has_tx then
      Except.ok PhyKind.gmiiMii
    else
      Except.ok PhyKind.gmii
  else if pads.has_rx_ctl then
    Except.error AutodetectError.rgmiiVendorSpecific
  else if pads.tx_data_width == 4 then
    Except.ok PhyKind.mii
  else
    Except.error AutodetectError.unableToAutodetect

/-- Claim C1: with no explicit PHY kind, auto-detection follows the ordered
decision list with first match winning: gtx clock and 8-bit tx_data resolve
to the combined 10/100/1000 variant when a plain tx clock is also present
and to the pure gigabit variant otherwise; otherwise rx_ctl fails as
vendor-specific; otherwise 4-bit tx_data resolves to MII; otherwise it
fails as unrecognized. -/
theorem autodetect_ordered (cp : ClockPads) (p : DataPads) :
    (cp.has_gtx = true → p.tx_data_width = 8 → cp.has_tx = true →
      LiteEthPHY cp p = Except.ok PhyKind.gmiiMii)
    ∧ (cp.has_gtx = true → p.tx_data_width = 8 → cp.has_tx = false →
      LiteEthPHY cp p = Except.ok PhyKind.gmii)
    ∧ (¬(cp.has_gtx = true ∧ p.tx_data_width = 8) → p.has_rx_ctl = true →
      LiteEthPHY cp p = Except.error AutodetectError.rgmiiVendorSpecific)
    ∧ (¬(cp.has_gtx = true ∧ p.tx_data_width = 8) → p.has_rx_ctl = false →
      p.tx_data_width = 4 → LiteEthPHY cp p = Except.ok PhyKind.mii)
    ∧ (¬(cp.has_gtx = true ∧ p.tx_data_width = 8) → p.has_rx_ctl = false →
      p.tx_data_width ≠ 4 →
      LiteEthPHY cp p = Except.error AutodetectError.unableToAutodetect) := by
  refine ⟨?_, ?_, ?_, ?_, ?_⟩
  · intro h1 h2 h3
    simp [LiteEthPHY, h1, h2, h3]
  · intro h1 h2 h3
    simp [LiteEthPHY, h1, h2, h3]
  · intro h1 h2
    rcases hg : cp.has_gtx with _ | _
    · simp [LiteEthPHY, hg, h2]
    · have hw : ¬ p.tx_data_width = 8 := fun hc => h1 ⟨hg, hc⟩
      simp [LiteEthPHY, hg, hw, h2]
  · intro h1 h2 h3
    rcases hg : cp.has_gtx with _ | _
    · simp [LiteEthPHY, hg, h2, h3]
    · have hw : ¬ p.tx_data_width = 8 := fun hc => h1 ⟨hg, hc⟩
      simp [LiteEthPHY, hg, hw, h2, h3]
  · intro h1 h2 h3
    rcases hg : cp.has_gtx with _ | _
    · simp [LiteEthPHY, hg, h2, h3]
    · have hw : ¬ p.tx_data_width = 8 := fun hc => h1 ⟨hg, hc⟩
      simp [LiteEthPHY, hg, hw, h2, h3]

/-- Witness for C1 at a concrete shape: gtx plus plain tx clock and 8-bit
data resolve to the combined 10/100/1000 variant. -/
theorem autodetect_ordered_witness :
    LiteEthPHY { has_gtx := true, has_tx := true }
      { tx_data_width := 8, has_rx_ctl := false } = Except.ok PhyKind.gmiiMii :=
  (autodetect_ordered { has_gtx := true, has_tx := true }
    { tx_data_width := 8, has_rx_ctl := false }).1 rfl rfl rfl

/-- Counterexample to claim C2: a pad shape exposing rx_ctl on which
auto-detection nevertheless succeeds, because the gigabit rule (gtx clock
and 8-bit tx_data) is checked first and wins. -/
theorem rx_ctl_not_always_rejected :
    ({ tx_data_width := 8, has_rx_ctl := true } : DataPads).has_rx_ctl = true
    ∧ LiteEthPHY { has_gtx := true, has_tx := false }
        { tx_data_width := 8, has_rx_ctl := true } = Except.ok PhyKind.gmii :=
  ⟨rfl, rfl⟩

/-- Claim C2 (amended): a pad shape exposing rx_ctl fails auto-detection
with the vendor-specific RGMII error, provided the shape does not already
match the earlier gigabit rule (gtx clock and 8-bit tx_data), which is
checked first and wins. -/
theorem rx_ctl_rejected_unless_gigabit (cp : ClockPads) (p : DataPads)
    (h1 : p.has_rx_ctl = true)
    (h2 : ¬(cp.has_gtx = true ∧ p.tx_data_width = 8)) :
    LiteEthPHY cp p = Except.error AutodetectError.rgmiiVendorSpecific := by
  rcases hg : cp.has_gtx with _ | _
  · simp [LiteEthPHY, hg, h1]
  · have hw : ¬ p.tx_data_width = 8 := fun hc => h2 ⟨hg, hc⟩
    simp [LiteEthPHY, hg, hw, h1]

/-- Witness for the amended C2 at a concrete shape: rx_ctl with 4-bit data
and no gtx clock is rejected as vendor-specific. -/
theorem rx_ctl_rejected_unless_gigabit_witness :
    LiteEthPHY { has_gtx := false, has_tx := false }
      { tx_data_width := 4, has_rx_ctl := true } =
      Except.error AutodetectError.rgmiiVendorSpecific :=
  rx_ctl_rejected_unless_gigabit { has_gtx := false, has_tx := false }
    { tx_data_width := 4, has_rx_ctl := true } rfl (by simp)

/-! ## Generator configuration and composition (src/liteeth/gen.py) -/

/-- Errors raised while composing the standalone core. -/
inductive GenError where
  | deprecatedKey (k : String)
  | missingKey (k : String)
  | unsupportedPhy
  | unknownCore (v : String)
deriving DecidableEq, Repr

/-- The flat YAML configuration, restricted to the keys the generator
reads. `Option` fields model dictionary keys that may be absent;
`has_csr_map`/`has_mem_map` record presence of the two deprecated
top-level keys; `phy_tx_delay`/`phy_rx_delay` hold the raw numeric YAML
value before `main`'s `int(float(.))` conversion; `mem_map_ethmac` models
`self.mem_map.get("ethmac", None)`. -/
structure CoreConfig where
  has_csr_map    : Bool := false
  has_mem_map    : Bool := false
  clk_freq       : Option Nat := none
  phy            : PhyKind
  phy_tx_delay   : Option ℚ := none
  phy_rx_delay   : Option ℚ := none
  core           : String := ""
  endianness     : Option String := none
  nrxslots       : Option Nat := none
  ntxslots       : Option Nat := none
  full_memory_we : Option Bool := none
  mac_address    : Option Nat := none
  ip_address     : Option Nat := none
  port           : Option Nat := none
  mem_map_ethmac : Option Nat := none
deriving DecidableEq, Repr

/-- Python `int(float(q))`: truncation toward zero of the numeric value. -/
def pyIntOfFloat (q : ℚ) : Int :=
  if 0 ≤ q then ⌊q⌋ else ⌈q⌉

/-- The `tx_delay` value `PHYCore` passes to an RGMII PHY
(gen.py line 211): `core_config.get("phy_tx_delay", 2e-9)`, where `main`
(line 335-336) has already replaced a present value by `int(float(.))`. -/
def phyTxDelayParam (cfg : CoreConfig) : ℚ :=
  match cfg.phy_tx_delay with
  | some raw => (pyIntOfFloat raw : ℚ)
  | none => 2 / 1000000000

/-- The `rx_delay` value `PHYCore` passes to an RGMII PHY
(gen.py line 212), analogous to `phyTxDelayParam`. -/
def phyRxDelayParam (cfg : CoreConfig) : ℚ :=
  match cfg.phy_rx_delay with
  | some raw => (pyIntOfFloat raw : ℚ)
  | none => 2 / 1000000000

/-- Parameters of one instantiated PHY (the keyword arguments
`PHYCore.__init__` passes in its dispatch, gen.py lines 190-215). -/
structure PhyInstance where
  kind               : PhyKind
  clock_pads         : String
  pads               : String
  clk_freq           : Option Nat
  tx_delay           : Option ℚ
  rx_delay           : Option ℚ
  with_hw_init_reset : Option Bool
deriving DecidableEq, Repr

/-- Parameters of the instantiated `LiteEthMAC` (gen.py lines 242-249). -/
structure MacInstance where
  dw             : Nat
  interface      : String
  endianness     : String
  nrxslots       : Nat
  ntxslots       : Nat
  full_memory_we : Bool
deriving DecidableEq, Repr

/-- A memory region registered on the bus (litex `SoCRegion` as used at
gen.py line 253). -/
structure SoCRegion where
  origin : Option Nat
  size   : Nat
  cached : Bool
deriving DecidableEq, Repr

/-- Build events, in program order: component instantiations and
`platform.request` pad acquisitions. -/
inductive Event where
  | socMini
  | crg
  | phyInst (p : PhyInstance)
  | macInst (m : MacInstance)
  | udpIpCore
  | requestPad (name : String)
deriving DecidableEq, Repr

/-- The PHY dispatch of `PHYCore.__init__` (gen.py lines 189-215): for a
supported kind, the pads requested and the instance parameters; otherwise
the `Unsupported PHY` error. -/
def phyDispatch (cfg : CoreConfig) (clk_freq : Nat) :
    Except GenError (List Event × PhyInstance) :=
  match cfg.phy with
  | PhyKind.mii =>
      Except.ok ([Event.requestPad "mii_eth_clocks", Event.requestPad "mii_eth"],
        { kind := PhyKind.mii, clock_pads := "mii_eth_clocks", pads := "mii_eth",
          clk_freq := none, tx_delay := none, rx_delay := none,
          with_hw_init_reset := none })
  | PhyKind.rmii =>
      Except.ok ([Event.requestPad "rmii_eth_clocks", Event.requestPad "rmii_eth"],
        { kind := PhyKind.rmii, clock_pads := "rmii_eth_clocks", pads := "rmii_eth",
          clk_freq := none, tx_delay := none, rx_delay := none,
          with_hw_init_reset := none })
  | PhyKind.gmii =>
      Except.ok ([Event.requestPad "gmii_eth_clocks", Event.requestPad "gmii_eth"],
        { kind := PhyKind.gmii, clock_pads := "gmii_eth_clocks", pads := "gmii_eth",
          clk_freq := none, tx_delay := none, rx_delay := none,
          with_hw_init_reset := none })
  | PhyKind.gmiiMii =>
      Except.ok ([Event.requestPad "gmii_eth_clocks", Event.requestPad "gmii_eth"],
        { kind := PhyKind.gmiiMii, clock_pads := "gmii_eth_clocks", pads := "gmii_eth",
          clk_freq := some clk_freq, tx_delay := none, rx_delay := none,
          with_hw_init_reset := none })
  | PhyKind.s7rgmii =>
      Except.ok ([Event.requestPad "rgmii_eth_clocks", Event.requestPad "rgmii_eth"],
        { kind := PhyKind.s7rgmii, clock_pads := "rgmii_eth_clocks", pads := "rgmii_eth",
          clk_freq := none, tx_delay := some (phyTxDelayParam cfg),
          rx_delay := some (phyRxDelayParam cfg), with_hw_init_reset := some false })
  | PhyKind.ecp5rgmii =>
      Except.ok ([Event.requestPad "rgmii_eth_clocks", Event.requestPad "rgmii_eth"],
        { kind := PhyKind.ecp5rgmii, clock_pads := "rgmii_eth_clocks", pads := "rgmii_eth",
          clk_freq := none, tx_delay := some (phyTxDelayParam cfg),
          rx_delay := some (phyRxDelayParam cfg), with_hw_init_reset := some false })
  | _ => Except.error GenError.unsupportedPhy

/-- Clocks named by the emitted timing constraints. -/
inductive ClockName where
  | sys
  | ethRx
  | ethTx
deriving DecidableEq, Repr

/-- One emitted timing constraint. -/
inductive ConstraintEntry where
  | period (c : ClockName) (period_ns : ℚ)
  | falsePath (a b : ClockName)
deriving DecidableEq, Repr

/-- Constraint emission of `PHYCore.__init__` (gen.py lines 222-228):
skipped when the instantiated PHY is the simulation model, otherwise two
period constraints `1e9 / rx_clk_freq` and `1e9 / tx_clk_freq` plus the
false paths of the external litex call
`add_false_path_constraints(sys_clk, eth_rx_clk, eth_tx_clk)`.
Modelled from the spec: the litex platform methods are outside this
repository; per the spec they record one period entry per call and one
false-path pair per (system clock, receive clock) and (system clock,
transmit clock). -/
def deriveConstraints (kind : PhyKind) (rx_clk_freq tx_clk_freq : ℚ) :
    List ConstraintEntry :=
  if kind = PhyKind.model then []
  else
    [ConstraintEntry.period ClockName.ethRx (1000000000 / rx_clk_freq),
     ConstraintEntry.period ClockName.ethTx (1000000000 / tx_clk_freq),
     ConstraintEntry.falsePath ClockName.sys ClockName.ethRx,
     ConstraintEntry.falsePath ClockName.sys ClockName.ethTx]

/-- Result of `PHYCore.__init__` when it succeeds. -/
structure PhyOut where
  phy         : PhyInstance
  constraints : List ConstraintEntry
  clk_freq    : Nat
deriving DecidableEq, Repr

/-- Embedding of `PHYCore.__init__` (gen.py lines 166-228): the deprecated
top-level key check, the `clk_freq` lookup feeding `SoCMini`, the CRG with
its clock/reset pad requests, the PHY dispatch, and constraint emission.
`rx_clk_freq`/`tx_clk_freq` stand for the selected PHY class attributes
(defined outside src). Returns the build events in program order together
with the outcome. -/
def phyCoreBuild (rx_clk_freq tx_clk_freq : ℚ) (cfg : CoreConfig) :
    List Event × Except GenError PhyOut :=
  if cfg.has_csr_map then
    ([], Except.error (GenError.deprecatedKey "csr_map"))
  else if cfg.has_mem_map then
    ([], Except.error (GenError.deprecatedKey "mem_map"))
  else
    match cfg.clk_freq with
    | none => ([], Except.error (GenError.missingKey "clk_freq"))
    | some f =>
        let pre : List Event :=
          [Event.socMini, Event.requestPad "sys_clock",
           Event.requestPad "sys_reset", Event.crg]
        match phyDispatch cfg f with
        | Except.error e => (pre, Except.error e)
        | Except.ok (evs, inst) =>
            (pre ++ evs ++ [Event.phyInst inst],
             Except.ok { phy := inst,
                         constraints := deriveConstraints inst.kind rx_clk_freq tx_clk_freq,
                         clk_freq := f })

/-- Result of `MACCore.__init__` when it succeeds. -/
structure MacOut where
  phyOut : PhyOut
  mac    : MacInstance
  region : SoCRegion
deriving DecidableEq, Repr

/-- Embedding of `MACCore.__init__` (gen.py lines 232-257): slot counts
with their defaults, the `PHYCore` part, the `LiteEthMAC` instantiation
(whose `endianness` argument is a mandatory dictionary lookup), the bus
region, and the interrupt pad. `buffer_depth` is the fixed per-slot buffer
size imported from `liteeth.common` (outside src), kept abstract. -/
def macCoreBuild (rx_clk_freq tx_clk_freq : ℚ) (buffer_depth : Nat)
    (cfg : CoreConfig) : List Event × Except GenError MacOut :=
  let nrxslots := cfg.nrxslots.getD 2
  let ntxslots := cfg.ntxslots.getD 2
  match phyCoreBuild rx_clk_freq tx_clk_freq cfg with
  | (evs, Except.error e) => (evs, Except.error e)
  | (evs, Except.ok pout) =>
      match cfg.endianness with
      | none => (evs, Except.error (GenError.missingKey "endianness"))
      | some e =>
          let mac : MacInstance :=
            { dw := 32, interface := "wishbone", endianness := e,
              nrxslots := nrxslots, ntxslots := ntxslots,
              full_memory_we := cfg.full_memory_we.getD false }
          let region : SoCRegion :=
            { origin := cfg.mem_map_ethmac,
              size := (nrxslots + ntxslots) * buffer_depth, cached := false }
          (evs ++ [Event.macInst mac, Event.requestPad "interrupt"],
           Except.ok { phyOut := pout, mac := mac, region := region })

/-- Where the UDP/IP core's MAC or IP address comes from. -/
inductive AddrSource where
  | literal (v : Nat)
  | pad
deriving DecidableEq, Repr

/-- Result of `UDPCore.__init__` when it succeeds. -/
structure UdpOut where
  phyOut    : PhyOut
  macSource : AddrSource
  ipSource  : AddrSource
  udpPorts  : List (Nat × Nat)
deriving DecidableEq, Repr

/-- Embedding of `UDPCore.__init__` (gen.py lines 261-315): the `PHYCore`
part, MAC/IP address sourcing (pad request exactly when the literal is
absent), the UDP/IP core, the single `get_port(core_config["port"], 8)`
binding (a mandatory dictionary lookup), and the UDP sink/source pads. -/
def udpCoreBuild (rx_clk_freq tx_clk_freq : ℚ) (cfg : CoreConfig) :
    List Event × Except GenError UdpOut :=
  match phyCoreBuild rx_clk_freq tx_clk_freq cfg with
  | (evs, Except.error e) => (evs, Except.error e)
  | (evs, Except.ok pout) =>
      let macPart : List Event × AddrSource :=
        match cfg.mac_address with
        | some v => ([], AddrSource.literal v)
        | none => ([Event.requestPad "mac_address"], AddrSource.pad)
      let ipPart : List Event × AddrSource :=
        match cfg.ip_address with
        | some v => ([], AddrSource.literal v)
        | none => ([Event.requestPad "ip_address"], AddrSource.pad)
      let evs2 := evs ++ macPart.1 ++ ipPart.1 ++ [Event.udpIpCore]
      match cfg.port with
      | none => (evs2, Except.error (GenError.missingKey "port"))
      | some p =>
          (evs2 ++ [Event.requestPad "udp_sink", Event.requestPad "udp_source"],
           Except.ok { phyOut := pout, macSource := macPart.2,
                       ipSource := ipPart.2, udpPorts := [(p, 8)] })

/-- The core finally built. -/
inductive BuiltCore where
  | macBased (o : MacOut)
  | udpBased (o : UdpOut)
deriving DecidableEq, Repr

/-- The `core` branch of `main` (gen.py lines 351-356): `"wishbone"` builds
`MACCore`, `"udp"` builds `UDPCore`, anything else raises
`Unknown core: ...` naming the offending value. -/
def coreDispatch (rx_clk_freq tx_clk_freq : ℚ) (buffer_depth : Nat)
    (cfg : CoreConfig) : List Event × Except GenError BuiltCore :=
  if cfg.core = "wishbone" then
    let r := macCoreBuild rx_clk_freq tx_clk_freq buffer_depth cfg
    (r.1, r.2.map BuiltCore.macBased)
  else if cfg.core = "udp" then
    let r := udpCoreBuild rx_clk_freq tx_clk_freq cfg
    (r.1, r.2.map BuiltCore.udpBased)
  else
    ([], Except.error (GenError.unknownCore cfg.core))

/-- True exactly on a failed build outcome. -/
def isErr {α : Type} : Except GenError α → Bool
  | Except.error _ => true
  | Except.ok _ => false

/-! ## Concrete configurations used as witnesses -/

/-- A config using the value `mac` for the `core` key, as the spec
documents it. -/
def cfgMacValue : CoreConfig :=
  { phy := PhyKind.mii, clk_freq := some 100, core := "mac",
    endianness := some "big" }

/-- A well-formed MAC-core configuration (the accepted `core` value is
`wishbone`). -/
def cfgGoodMac : CoreConfig :=
  { phy := PhyKind.mii, clk_freq := some 100, core := "wishbone",
    endianness := some "big" }

/-- A well-formed UDP-core configuration with a literal IP address, no
literal MAC address, and port 6000. -/
def cfgGoodUdp : CoreConfig :=
  { phy := PhyKind.gmii, clk_freq := some 100, core := "udp",
    ip_address := some 50, port := some 6000 }

/-- A configuration carrying the deprecated top-level `csr_map` key. -/
def cfgDeprecated : CoreConfig :=
  { phy := PhyKind.mii, clk_freq := some 100, core := "wishbone",
    endianness := some "big", has_csr_map := true }

/-- A UDP-core configuration lacking the `port` key. -/
def cfgNoPort : CoreConfig :=
  { phy := PhyKind.gmii, clk_freq := some 100, core := "udp",
    ip_address := some 50, mac_address := some 1 }

/-- A MAC-core configuration lacking the `endianness` key. -/
def cfgNoEnd : CoreConfig :=
  { phy := PhyKind.mii, clk_freq := some 100, core := "wishbone" }

/-- An RGMII configuration with both delay keys absent. -/
def cfgRgmiiNone : CoreConfig :=
  { phy := PhyKind.s7rgmii, clk_freq := some 100, core := "wishbone",
    endianness := some "big" }

/-- An RGMII configuration supplying the integer 2 for both delay keys. -/
def cfgRgmiiTwo : CoreConfig :=
  { phy := PhyKind.s7rgmii, clk_freq := some 100, core := "wishbone",
    endianness := some "big", phy_tx_delay := some 2, phy_rx_delay := some 2 }

/-! ## Claim C3: the `core` key -/

/-- Counterexample to claim C3: the value `mac` for the `core` key does not
build the MAC-based core; the generator rejects it as an unknown core (the
accepted value is `wishbone`). -/
theorem core_mac_value_rejected :
    (coreDispatch 8 8 2048 cfgMacValue).2 =
      Except.error (GenError.unknownCore "mac") := rfl

/-- Claim C3 (amended): the `core` key takes one of exactly two values,
`wishbone` or `udp`: `wishbone` builds the MAC-based core, `udp` builds
the UDP/IP core, and any other value (including `mac`) fails with an error
identifying the offending value. -/
theorem core_key_dispatch (rx tx : ℚ) (B : Nat) (cfg : CoreConfig) :
    (cfg.core = "wishbone" →
      (coreDispatch rx tx B cfg).2 =
        (macCoreBuild rx tx B cfg).2.map BuiltCore.macBased)
    ∧ (cfg.core = "udp" →
      (coreDispatch rx tx B cfg).2 =
        (udpCoreBuild rx tx cfg).2.map BuiltCore.udpBased)
    ∧ (cfg.core ≠ "wishbone" → cfg.core ≠ "udp" →
      (coreDispatch rx tx B cfg).2 =
        Except.error (GenError.unknownCore cfg.core)) := by
  refine ⟨?_, ?_, ?_⟩
  · intro h
    simp [coreDispatch, h]
  · intro h
    simp [coreDispatch, h]
  · intro h1 h2
    simp [coreDispatch, h1, h2]

/-- Witness for the amended C3 at a concrete config with `core=wishbone`. -/
theorem core_key_dispatch_witness :
    (coreDispatch 8 8 2048 cfgGoodMac).2 =
      (macCoreBuild 8 8 2048 cfgGoodMac).2.map BuiltCore.macBased :=
  (core_key_dispatch 8 8 2048 cfgGoodMac).1 rfl

/-! ## Claim C4: the MAC bus region -/

/-- The region registered for the MAC, when composition succeeds. -/
def macRegionOf (rx_clk_freq tx_clk_freq : ℚ) (buffer_depth : Nat)
    (cfg : CoreConfig) : Option SoCRegion :=
  match (macCoreBuild rx_clk_freq tx_clk_freq buffer_depth cfg).2 with
  | Except.ok out => some out.region
  | Except.error _ => none

/-- Claim C4: the MAC memory region has size
`(nrxslots + ntxslots) * buffer_depth` with both slot counts defaulting
to 2, and is always marked uncached; with both counts absent the size is
`4 * buffer_depth`. -/
theorem mac_region_uncached (rx tx : ℚ) (B : Nat) (cfg : CoreConfig)
    (reg : SoCRegion) (h : macRegionOf rx tx B cfg = some reg) :
    reg.cached = false
    ∧ reg.size = (cfg.nrxslots.getD 2 + cfg.ntxslots.getD 2) * B
    ∧ (cfg.nrxslots = none → cfg.ntxslots = none → reg.size = 4 * B) := by
  unfold macRegionOf macCoreBuild at h
  rcases hp : phyCoreBuild rx tx cfg with ⟨evs, r⟩
  rw [hp] at h
  cases r with
  | error e => simp at h
  | ok pout =>
      cases he : cfg.endianness with
      | none => rw [he] at h; simp at h
      | some e =>
          rw [he] at h
          simp at h
          subst h
          refine ⟨rfl, rfl, ?_⟩
          intro hn hm
          simp [hn, hm]

/-- Witness for C4: the default-slot MAC config yields an uncached region
of size `4 * 2048`. -/
theorem mac_region_uncached_witness :
    ({ origin := none, size := 8192, cached := false } : SoCRegion).cached = false
    ∧ ({ origin := none, size := 8192, cached := false } : SoCRegion).size =
        (cfgGoodMac.nrxslots.getD 2 + cfgGoodMac.ntxslots.getD 2) * 2048
    ∧ ({ origin := none, size := 8192, cached := false } : SoCRegion).size =
        4 * 2048 :=
  have h := mac_region_uncached 8 8 2048 cfgGoodMac
    { origin := none, size := 8192, cached := false } rfl
  ⟨h.1, h.2.1, h.2.2 rfl rfl⟩

/-! ## Claim C5: deprecated top-level keys -/

/-- Claim C5: a configuration carrying top-level `csr_map` or `mem_map` is
rejected before any component is instantiated or pad requested (the event
trace is empty), by both the MAC-core and the UDP-core composition;
`csr_map` is checked first. -/
theorem deprecated_keys_rejected (rx tx : ℚ) (B : Nat) (cfg : CoreConfig) :
    (cfg.has_csr_map = true →
      (macCoreBuild rx tx B cfg).1 = []
      ∧ (macCoreBuild rx tx B cfg).2 =
          Except.error (GenError.deprecatedKey "csr_map")
      ∧ (udpCoreBuild rx tx cfg).1 = []
      ∧ (udpCoreBuild rx tx cfg).2 =
          Except.error (GenError.deprecatedKey "csr_map"))
    ∧ (cfg.has_csr_map = false → cfg.has_mem_map = true →
      (macCoreBuild rx tx B cfg).1 = []
      ∧ (macCoreBuild rx tx B cfg).2 =
          Except.error (GenError.deprecatedKey "mem_map")
      ∧ (udpCoreBuild rx tx cfg).1 = []
      ∧ (udpCoreBuild rx tx cfg).2 =
          Except.error (GenError.deprecatedKey "mem_map")) := by
  constructor
  · intro h1
    simp [macCoreBuild, udpCoreBuild, phyCoreBuild, h1]
  · intro h1 h2
    simp [macCoreBuild, udpCoreBuild, phyCoreBuild, h1, h2]

/-- Witness for C5 at a concrete config carrying top-level `csr_map`. -/
theorem deprecated_keys_rejected_witness :
    (macCoreBuild 8 8 2048 cfgDeprecated).1 = []
    ∧ (macCoreBuild 8 8 2048 cfgDeprecated).2 =
        Except.error (GenError.deprecatedKey "csr_map")
    ∧ (udpCoreBuild 8 8 cfgDeprecated).1 = []
    ∧ (udpCoreBuild 8 8 cfgDeprecated).2 =
        Except.error (GenError.deprecatedKey "csr_map") :=
  (deprecated_keys_rejected 8 8 2048 cfgDeprecated).1 rfl

/-! ## Claim C10: `endianness` is mandatory for the MAC core -/

/-- Claim C10: the MAC-core composition requires the `endianness` key: it
is passed to the MAC instantiation by mandatory dictionary lookup with no
default, so a configuration lacking it never composes, and on success the
MAC's endianness is exactly the configured value. -/
theorem mac_endianness_required (rx tx : ℚ) (B : Nat) (cfg : CoreConfig) :
    (cfg.endianness = none →
      isErr (macCoreBuild rx tx B cfg).2 = true)
    ∧ (∀ out, (macCoreBuild rx tx B cfg).2 = Except.ok out →
      cfg.endianness = some out.mac.endianness) := by
  constructor
  · intro he
    unfold macCoreBuild
    rcases hp : phyCoreBuild rx tx cfg with ⟨evs, r⟩
    cases r with
    | error e => simp [isErr]
    | ok pout => simp [he, isErr]
  · intro out h
    unfold macCoreBuild at h
    rcases hp : phyCoreBuild rx tx cfg with ⟨evs, r⟩
    rw [hp] at h
    cases r with
    | error e => simp at h
    | ok pout =>
        cases he : cfg.endianness with
        | none => rw [he] at h; simp at h
        | some e =>
            rw [he] at h
            simp at h
            subst h
            rfl

/-- Witness for C10: the concrete MAC config lacking `endianness` fails. -/
theorem mac_endianness_required_witness :
    isErr (macCoreBuild 8 8 2048 cfgNoEnd).2 = true :=
  (mac_endianness_required 8 8 2048 cfgNoEnd).1 rfl

/-! ## Trace helper lemmas -/

/-- The pads requested by the PHY dispatch never include the MAC- or
IP-address pads. -/
theorem phyDispatch_no_addr_pads (cfg : CoreConfig) (f : Nat)
    (evs : List Event) (inst : PhyInstance)
    (h : phyDispatch cfg f = Except.ok (evs, inst)) :
    Event.requestPad "mac_address" ∉ evs ∧ Event.requestPad "ip_address" ∉ evs := by
  cases hk : cfg.phy <;> simp [phyDispatch, hk] at h <;>
    (obtain ⟨h1, _⟩ := h; subst h1; decide)

/-- The PHY dispatch never instantiates the simulation model PHY. -/
theorem phyDispatch_not_model (cfg : CoreConfig) (f : Nat)
    (evs : List Event) (inst : PhyInstance)
    (h : phyDispatch cfg f = Except.ok (evs, inst)) :
    inst.kind ≠ PhyKind.model := by
  cases hk : cfg.phy <;> simp [phyDispatch, hk] at h <;>
    (obtain ⟨_, h2⟩ := h; subst h2; simp)

/-- The `PHYCore` part of a composition never requests the MAC- or
IP-address pads. -/
theorem phyCoreBuild_no_addr_pads (rx tx : ℚ) (cfg : CoreConfig) :
    Event.requestPad "mac_address" ∉ (phyCoreBuild rx tx cfg).1
    ∧ Event.requestPad "ip_address" ∉ (phyCoreBuild rx tx cfg).1 := by
  unfold phyCoreBuild
  split
  · simp
  · split
    · simp
    · rcases hc : cfg.clk_freq with _ | f
      · simp
      · simp only
        rcases hd : phyDispatch cfg f with e | ⟨evs, inst⟩
        · simp
        · have := phyDispatch_no_addr_pads cfg f evs inst hd
          simp [List.mem_append, this.1, this.2]

/-! ## Claim C6: UDP-core address sourcing -/

/-- Claim C6: in a UDP-core composition, an absent `mac_address` (resp.
`ip_address`) is sourced from the external pad of that name, which is then
requested; a configured literal is used directly and the corresponding pad
is never requested anywhere in the composition. -/
theorem udp_address_sources (rx tx : ℚ) (cfg : CoreConfig) (out : UdpOut)
    (h : (udpCoreBuild rx tx cfg).2 = Except.ok out) :
    (cfg.mac_address = none →
      out.macSource = AddrSource.pad
      ∧ Event.requestPad "mac_address" ∈ (udpCoreBuild rx tx cfg).1)
    ∧ (∀ v, cfg.mac_address = some v →
      out.macSource = AddrSource.literal v
      ∧ Event.requestPad "mac_address" ∉ (udpCoreBuild rx tx cfg).1)
    ∧ (cfg.ip_address = none →
      out.ipSource = AddrSource.pad
      ∧ Event.requestPad "ip_address" ∈ (udpCoreBuild rx tx cfg).1)
    ∧ (∀ v, cfg.ip_address = some v →
      out.ipSource = AddrSource.literal v
      ∧ Event.requestPad "ip_address" ∉ (udpCoreBuild rx tx cfg).1) := by
  obtain ⟨hpm, hpi⟩ := phyCoreBuild_no_addr_pads rx tx cfg
  unfold udpCoreBuild at h ⊢
  rcases hp : phyCoreBuild rx tx cfg with ⟨evs, r⟩
  rw [hp] at h hpm hpi
  cases r with
  | error e => simp at h
  | ok pout =>
      simp only [Prod.fst] at hpm hpi
      rcases hq : cfg.port with _ | p
      · rw [hq] at h
        simp at h
      · rcases hm : cfg.mac_address with _ | v <;>
          rcases hi : cfg.ip_address with _ | w <;>
            (try simp only [hm, hi, hq] at h) <;>
            (try simp only [hm, hi, hq]) <;>
            (simp at h
             subst h
             refine ⟨?_, ?_, ?_, ?_⟩ <;>
               (intros; simp_all [List.mem_append]))

/-- The concrete result of composing `cfgGoodUdp`. -/
def outUdp : UdpOut :=
  { phyOut :=
      { phy := { kind := PhyKind.gmii, clock_pads := "gmii_eth_clocks",
                 pads := "gmii_eth", clk_freq := none, tx_delay := none,
                 rx_delay := none, with_hw_init_reset := none },
        constraints := deriveConstraints PhyKind.gmii 8 8,
        clk_freq := 100 },
    macSource := AddrSource.pad,
    ipSource := AddrSource.literal 50,
    udpPorts := [(6000, 8)] }

/-- Witness for C6: with `mac_address` absent, the concrete UDP build
sources it from the pad and requests that pad. -/
theorem udp_address_sources_witness :
    outUdp.macSource = AddrSource.pad
    ∧ Event.requestPad "mac_address" ∈ (udpCoreBuild 8 8 cfgGoodUdp).1 :=
  (udp_address_sources 8 8 cfgGoodUdp outUdp rfl).1 rfl

/-! ## Claim C7: timing constraint emission -/

/-- Claim C7: constraint emission is skipped for the simulation model PHY
and otherwise emits exactly four entries: period constraints
`1e9 / rx_clk_freq` and `1e9 / tx_clk_freq` on the receive and transmit
clocks plus one false path per (system, receive) and (system, transmit)
pair; every successful `PHYCore` composition carries exactly four. -/
theorem constraint_emission (rx tx : ℚ) :
    deriveConstraints PhyKind.model rx tx = []
    ∧ (∀ k, k ≠ PhyKind.model →
        deriveConstraints k rx tx =
          [ConstraintEntry.period ClockName.ethRx (1000000000 / rx),
           ConstraintEntry.period ClockName.ethTx (1000000000 / tx),
           ConstraintEntry.falsePath ClockName.sys ClockName.ethRx,
           ConstraintEntry.falsePath ClockName.sys ClockName.ethTx]
        ∧ (deriveConstraints k rx tx).length = 4)
    ∧ (∀ cfg out, (phyCoreBuild rx tx cfg).2 = Except.ok out →
        out.constraints.length = 4) := by
  refine ⟨by simp [deriveConstraints], ?_, ?_⟩
  · intro k hk
    constructor <;> simp [deriveConstraints, hk]
  · intro cfg out h
    unfold phyCoreBuild at h
    split at h
    · simp at h
    · split at h
      · simp at h
      · split at h
        · simp at h
        · split at h
          · simp at h
          · rename_i evs inst hd
            have hkind := phyDispatch_not_model cfg _ evs inst hd
            simp at h
            subst h
            simp [deriveConstraints, hkind]

/-- Witness for C7 at the MII kind: the emitted list and its length. -/
theorem constraint_emission_witness :
    deriveConstraints PhyKind.mii 8 8 =
      [ConstraintEntry.period ClockName.ethRx (1000000000 / 8),
       ConstraintEntry.period ClockName.ethTx (1000000000 / 8),
       ConstraintEntry.falsePath ClockName.sys ClockName.ethRx,
       ConstraintEntry.falsePath ClockName.sys ClockName.ethTx]
    ∧ (deriveConstraints PhyKind.mii 8 8).length = 4 :=
  (constraint_emission 8 8).2.1 PhyKind.mii (by decide)

/-! ## Claim C8: the UDP port binding -/

/-- Claim C8: a successful UDP-core composition acquires exactly one UDP
port binding, at the configured `port` value, with queue depth 8; a
configuration lacking `port` fails to compose. -/
theorem udp_port_binding (rx tx : ℚ) (cfg : CoreConfig) :
    (∀ out, (udpCoreBuild rx tx cfg).2 = Except.ok out →
      ∃ p, cfg.port = some p ∧ out.udpPorts = [(p, 8)])
    ∧ (cfg.port = none → isErr (udpCoreBuild rx tx cfg).2 = true) := by
  constructor
  · intro out h
    unfold udpCoreBuild at h
    rcases hp : phyCoreBuild rx tx cfg with ⟨evs, r⟩
    rw [hp] at h
    cases r with
    | error e => simp at h
    | ok pout =>
        rcases hq : cfg.port with _ | p
        · rw [hq] at h
          simp at h
        · rw [hq] at h
          simp at h
          subst h
          exact ⟨p, rfl, rfl⟩
  · intro hq
    unfold udpCoreBuild
    rcases hp : phyCoreBuild rx tx cfg with ⟨evs, r⟩
    cases r with
    | error e => simp [isErr]
    | ok pout => simp [hq, isErr]

/-- Witness for C8: the concrete UDP config lacking `port` fails. -/
theorem udp_port_binding_witness :
    isErr (udpCoreBuild 8 8 cfgNoPort).2 = true :=
  (udp_port_binding 8 8 cfgNoPort).2 rfl

/-! ## Claim C9: RGMII delay parameters -/

/-- The `tx_delay` actually handed to the PHY by the dispatch, when the
dispatch succeeds. -/
def dispatchTxDelay (cfg : CoreConfig) (f : Nat) : Option ℚ :=
  match phyDispatch cfg f with
  | Except.ok (_, inst) => inst.tx_delay
  | Except.error _ => none

/-- Counterexample to claim C9: with the delay key absent the PHY gets
`2e-9` (2 ns written in seconds), while supplying the integer 2 — the
claimed "2 nanoseconds" — makes the PHY get the unscaled value 2, a
factor 1e9 larger; so "absent means 2 ns" and "a supplied integer n means
n ns" cannot both hold of this code. -/
theorem rgmii_delay_units_cex :
    dispatchTxDelay cfgRgmiiNone 100 = some (2 / 1000000000)
    ∧ dispatchTxDelay cfgRgmiiTwo 100 = some 2
    ∧ (2 : ℚ) ≠ 2 / 1000000000 := by
  refine ⟨rfl, ?_, by norm_num⟩
  norm_num [dispatchTxDelay, phyDispatch, cfgRgmiiTwo, phyTxDelayParam,
    pyIntOfFloat]

/-- Claim C9 (amended): for the 7-series and ECP5 RGMII kinds, the PHY is
instantiated with `tx_delay`/`rx_delay` equal to `2e-9` (2 ns expressed in
seconds) when the corresponding key is absent; when supplied, the raw
value is truncated to an integer by `int(float(.))` and passed without
unit scaling. -/
theorem rgmii_delay_params (cfg : CoreConfig) (f : Nat) (evs : List Event)
    (inst : PhyInstance)
    (hk : cfg.phy = PhyKind.s7rgmii ∨ cfg.phy = PhyKind.ecp5rgmii)
    (h : phyDispatch cfg f = Except.ok (evs, inst)) :
    inst.tx_delay = some (phyTxDelayParam cfg)
    ∧ inst.rx_delay = some (phyRxDelayParam cfg)
    ∧ (cfg.phy_tx_delay = none → inst.tx_delay = some (2 / 1000000000))
    ∧ (∀ q, cfg.phy_tx_delay = some q →
        inst.tx_delay = some ((pyIntOfFloat q : Int) : ℚ))
    ∧ (cfg.phy_rx_delay = none → inst.rx_delay = some (2 / 1000000000))
    ∧ (∀ q, cfg.phy_rx_delay = some q →
        inst.rx_delay = some ((pyIntOfFloat q : Int) : ℚ)) := by
  rcases hk with hk | hk <;>
    (simp [phyDispatch, hk] at h
     obtain ⟨_, h2⟩ := h
     subst h2
     refine ⟨rfl, rfl, ?_, ?_, ?_, ?_⟩ <;>
       (intros; simp_all [phyTxDelayParam, phyRxDelayParam]))

/-- The PHY instance produced for `cfgRgmiiTwo`. -/
def instRgmiiTwo : PhyInstance :=
  { kind := PhyKind.s7rgmii, clock_pads := "rgmii_eth_clocks",
    pads := "rgmii_eth", clk_freq := none,
    tx_delay := some (phyTxDelayParam cfgRgmiiTwo),
    rx_delay := some (phyRxDelayParam cfgRgmiiTwo),
    with_hw_init_reset := some false }

/-- Witness for the amended C9 at a concrete RGMII config supplying 2. -/
theorem rgmii_delay_params_witness :
    instRgmiiTwo.tx_delay = some (phyTxDelayParam cfgRgmiiTwo)
    ∧ instRgmiiTwo.tx_delay = some ((pyIntOfFloat 2 : Int) : ℚ) :=
  ⟨(rgmii_delay_params cfgRgmiiTwo 100
      [Event.requestPad "rgmii_eth_clocks", Event.requestPad "rgmii_eth"]
      instRgmiiTwo (Or.inl rfl) rfl).1,
   (rgmii_delay_params cfgRgmiiTwo 100
      [Event.requestPad "rgmii_eth_clocks", Event.requestPad "rgmii_eth"]
      instRgmiiTwo (Or.inl rfl) rfl).2.2.2.1 2 rfl⟩

end LiteEthV
